import Mathlib

/-!
# Verification of the AgentGo SDK HTTP core

Shallow embedding of the request engine and error classifier of the
agentgo-dev/sdk-node repository (files `src/core.ts` and `src/error.ts`),
together with theorems settling the specification claims about them.

Modelling conventions:
* Error kinds are runtime strings, as they are in JavaScript: the TypeScript
  union `AgentGoErrorType` is erased at runtime and the code never validates
  the string found in a JSON error body, so a faithful model must allow
  arbitrary strings in the `type` field.
* JavaScript numbers used for delays and `retryAfter` are modelled as `ℚ`.
* The JS truthiness test `if (this.retryAfter)` is modelled explicitly: it
  succeeds exactly when the field is present and nonzero.
* The promise-based control flow of `_makeRequest` is modelled by a sum type
  of the ways the `fetch` promise can settle, and explicit `Except` results
  for thrown errors; `setTimeout`/`clearTimeout` calls are counted in a
  `TimerTrace` along the exact paths the source executes them.
-/

namespace AgentGo

/-- Arbitrary structured diagnostic data attached to an error
(`AgentGoErrorDetails` in error.ts). -/
abbrev AgentGoErrorDetails := List (String × String)

/-- The JSON error body shape (`AgentGoErrorResponse` in error.ts).
At runtime the `error` field is whatever string the server sent. -/
structure AgentGoErrorResponse where
  error : String
  message : String
  details : Option AgentGoErrorDetails := none
  retryAfter : Option ℚ := none
  deriving DecidableEq, Repr

/-- The part of a fetch `Response` that `AgentGoError.fromResponse` reads. -/
structure Response where
  status : Nat
  statusText : String
  deriving DecidableEq, Repr

/-- The error value (`class AgentGoError` in error.ts).  The `type` field is
a string at runtime; the eight members of the TypeScript union are the eight
string literals used below. -/
structure AgentGoError where
  type : String
  message : String
  status : Option Nat := none
  details : Option AgentGoErrorDetails := none
  retryAfter : Option ℚ := none
  deriving DecidableEq, Repr

namespace AgentGoError

/-- The status-code switch of `fromResponse` (error.ts lines 85-114):
derives kind and generic message from the numeric status alone. -/
def fromStatusCode (status : Nat) (statusText : String) : AgentGoError :=
  if status = 400 then
    { type := "INVALID_REQUEST", message := "Invalid request parameters", status := some status }
  else if status = 401 then
    { type := "UNAUTHORIZED", message := "Invalid or missing API key", status := some status }
  else if status = 404 then
    { type := "SESSION_NOT_FOUND", message := "Resource not found", status := some status }
  else if status = 429 then
    { type := "RATE_LIMIT_EXCEEDED", message := "API rate limit exceeded", status := some status }
  else if status = 500 ∨ status = 502 ∨ status = 503 ∨ status = 504 then
    { type := "INTERNAL_SERVER_ERROR", message := "Internal server error", status := some status }
  else
    { type := "UNKNOWN_ERROR", message := "HTTP " ++ toString status ++ ": " ++ statusText,
      status := some status }

/-- `AgentGoError.fromResponse` (error.ts lines 65-115).  The guard
`if (responseBody?.error)` is a JS truthiness test: it takes the body branch
exactly when a body is present and its `error` string is non-empty, and the
string is passed to the constructor unvalidated. -/
def fromResponse (response : Response) (responseBody : Option AgentGoErrorResponse) :
    AgentGoError :=
  let status := response.status
  match responseBody with
  | some body =>
    if body.error ≠ "" then
      { type := body.error, message := body.message, status := some status,
        details := body.details, retryAfter := body.retryAfter }
    else
      fromStatusCode status response.statusText
  | none => fromStatusCode status response.statusText

/-- `AgentGoError.networkError` (error.ts lines 120-122). -/
def networkError (message : String) : AgentGoError :=
  { type := "NETWORK_ERROR", message := message }

/-- `AgentGoError.timeoutError` (error.ts lines 127-129). -/
def timeoutError (message : String) : AgentGoError :=
  { type := "TIMEOUT_ERROR", message := message }

/-- `isRetryable` (error.ts lines 134-141). -/
def isRetryable (e : AgentGoError) : Bool :=
  e.type == "RATE_LIMIT_EXCEEDED" || e.type == "INTERNAL_SERVER_ERROR" ||
  e.type == "NETWORK_ERROR" || e.type == "TIMEOUT_ERROR"

/-- JS truthiness of the `retryAfter` field: `if (this.retryAfter)` succeeds
exactly when the field is present and nonzero. -/
def truthyRetryAfter : Option ℚ → Bool
  | none => false
  | some q => q != 0

/-- The default switch of `getRetryDelay` (error.ts lines 152-163). -/
def defaultRetryDelay (type : String) : ℚ :=
  if type = "RATE_LIMIT_EXCEEDED" then 60000
  else if type = "INTERNAL_SERVER_ERROR" then 5000
  else if type = "NETWORK_ERROR" then 1000
  else if type = "TIMEOUT_ERROR" then 2000
  else 1000

/-- `getRetryDelay` (error.ts lines 146-164): an early return of
`retryAfter * 1000` guarded by JS truthiness, else the per-kind default. -/
def getRetryDelay (e : AgentGoError) : ℚ :=
  if truthyRetryAfter e.retryAfter then e.retryAfter.getD 0 * 1000
  else defaultRetryDelay e.type

end AgentGoError

/-! ## The request engine (`src/core.ts`, class `AgentGoClient`) -/

/-- The part of a fetch `Response` that `_handleResponse` reads: the `ok`
flag, status data, whether the content type includes `application/json`,
the parsed JSON error body when one parses (`none` models both an absent
body and a JSON parse failure, which the source tolerates), and the decoded
success payload. -/
structure HttpResponse (α : Type) where
  ok : Bool
  status : Nat
  statusText : String
  contentTypeJson : Bool
  jsonBody : Option AgentGoErrorResponse
  payload : α

/-- The ways the `fetch` promise of one attempt can settle: resolve with a
response, reject with an abort (the timeout timer fired), or reject with an
ordinary `Error` carrying a message. -/
inductive FetchResult (α : Type) where
  | resolved (resp : HttpResponse α)
  | rejectedAbort
  | rejectedError (message : String)

/-- Timer bookkeeping of one attempt: how many timeout timers `setTimeout`
created and how many `clearTimeout` calls ran. -/
structure TimerTrace where
  timersCreated : Nat
  clearCalls : Nat
  deriving DecidableEq, Repr

namespace AgentGoClient

/-- `_handleResponse` (core.ts lines 189-213): on a non-ok response, parse a
JSON error body when the content type is JSON and throw the classified
error; on an ok response return the payload. -/
def _handleResponse {α : Type} (resp : HttpResponse α) : Except AgentGoError α :=
  let isJson := resp.contentTypeJson
  if resp.ok = false then
    let errorBody : Option AgentGoErrorResponse := if isJson then resp.jsonBody else none
    Except.error (AgentGoError.fromResponse ⟨resp.status, resp.statusText⟩ errorBody)
  else
    Except.ok resp.payload

/-- `_makeRequest` (core.ts lines 137-184).  One timer is created before the
`try` block.  If `fetch` resolves, `clearTimeout` runs (line 168) and
`_handleResponse` is awaited; when the latter throws, control reaches the
`catch` block, which runs `clearTimeout` again (line 172) and — because the
thrown `AgentGoError` has `name = 'AgentGoError'`, not `'AbortError'` —
re-wraps it as `AgentGoError.networkError` with the original message.  If
`fetch` rejects with an abort, the catch classifies a timeout; any other
rejection is wrapped as a network error. -/
def _makeRequest {α : Type} (timeout : Nat) (fr : FetchResult α) :
    Except AgentGoError α × TimerTrace :=
  match fr with
  | FetchResult.resolved resp =>
    match _handleResponse resp with
    | Except.ok v => (Except.ok v, ⟨1, 1⟩)
    | Except.error e =>
      (Except.error (AgentGoError.networkError ("Network request failed: " ++ e.message)),
       ⟨1, 2⟩)
  | FetchResult.rejectedAbort =>
    (Except.error (AgentGoError.timeoutError
       ("Request timed out after " ++ toString timeout ++ "ms")), ⟨1, 1⟩)
  | FetchResult.rejectedError message =>
    (Except.error (AgentGoError.networkError ("Network request failed: " ++ message)), ⟨1, 1⟩)

/-- `_getRetryDelay` (core.ts lines 241-252); `jitter` stands for the value
`Math.random() * 1000` drawn on this call. -/
def _getRetryDelay (attempt : Nat) (error : AgentGoError) (jitter : ℚ) : ℚ :=
  let errorDelay := error.getRetryDelay
  let exponentialDelay := errorDelay * 2 ^ attempt
  min (exponentialDelay + jitter) 60000

/-- How one call of `_request` can end: return a payload, throw an
`AgentGoError`, or throw the JS value `null` (the `throw lastError` after
the loop when the loop body never ran). -/
inductive RequestOutcome (α : Type) where
  | ok (payload : α)
  | err (e : AgentGoError)
  | nullThrown
  deriving Repr

/-- Observable run of one `_request` call: its outcome, how many times the
transport was invoked (one per `_makeRequest` call), and the list of delays
slept between attempts, in order. -/
structure RequestRun (α : Type) where
  result : RequestOutcome α
  invocations : Nat
  sleeps : List ℚ

/-- The `throw lastError` after the loop (core.ts line 131), reached only
when the loop body never ran: throwing the JS variable `lastError`, which is
null when no attempt was made. -/
def _throwLast {α : Type} (lastError : Option AgentGoError) : RequestRun α :=
  match lastError with
  | some e => ⟨RequestOutcome.err e, 0, []⟩
  | none => ⟨RequestOutcome.nullThrown, 0, []⟩

/-- The retry loop of `_request` (core.ts lines 111-131), one iteration per
call.  `f n` is how the fetch promise of attempt `n` settles and `jitter n`
the random jitter drawn if attempt `n` schedules a retry.  `maxRetries` is
an `Int` because the per-request override is an unvalidated JS number.
Since `_makeRequest` only ever throws `AgentGoError`s, the wrap
`error instanceof AgentGoError ? error : networkError(String(error))` on
line 115 is the identity here. -/
def _requestAux {α : Type} (timeout : Nat) (f : Nat → FetchResult α) (jitter : Nat → ℚ)
    (maxRetries : Int) (attempt : Nat) (lastError : Option AgentGoError) : RequestRun α :=
  if h : (attempt : Int) ≤ maxRetries then
    match (_makeRequest timeout (f attempt)).1 with
    | Except.ok v => ⟨RequestOutcome.ok v, 1, []⟩
    | Except.error e =>
      if (attempt : Int) == maxRetries || !e.isRetryable then
        ⟨RequestOutcome.err e, 1, []⟩
      else
        let delay := _getRetryDelay attempt e (jitter attempt)
        let rest := _requestAux timeout f jitter maxRetries (attempt + 1) (some e)
        ⟨rest.result, rest.invocations + 1, delay :: rest.sleeps⟩
  else
    _throwLast lastError
termination_by (maxRetries + 1 - attempt).toNat
decreasing_by simp_wf; omega

/-- `_request` (core.ts lines 103-132): run the loop from attempt 0 with
`lastError = null`; `maxRetries` is `options.retries ?? this._maxRetries`. -/
def _request {α : Type} (timeout : Nat) (f : Nat → FetchResult α) (jitter : Nat → ℚ)
    (maxRetries : Int) : RequestRun α :=
  _requestAux timeout f jitter maxRetries 0 none

end AgentGoClient

/-! ## Claims about the error classifier -/

/-- Claim C2 as frozen is false on the code: when the JSON body's error-kind
field holds a string outside the eight-kind enumeration (here at the
concrete input status 400, body kind "TOTALLY_UNRECOGNIZED"), the resulting
error value carries the raw string through as its kind instead of becoming
UNKNOWN_ERROR. -/
theorem c2_unrecognized_kind_counterexample :
    (AgentGoError.fromResponse ⟨400, "Bad Request"⟩
      (some { error := "TOTALLY_UNRECOGNIZED", message := "boom" })).type
      = "TOTALLY_UNRECOGNIZED" ∧
    (AgentGoError.fromResponse ⟨400, "Bad Request"⟩
      (some { error := "TOTALLY_UNRECOGNIZED", message := "boom" })).type
      ≠ "UNKNOWN_ERROR" := by
  exact ⟨rfl, by decide⟩

/-- Claim C2 amended: for every HTTP error response whose JSON body has a
non-empty error-kind string, classification constructs the error value from
the body's kind, message, optional details and optional retry-after,
attaching the response's HTTP status — and the kind string is carried
through unvalidated, so an unrecognized string becomes the error value's
kind rather than UNKNOWN_ERROR. -/
theorem c2_body_classification (resp : Response) (body : AgentGoErrorResponse)
    (h : body.error ≠ "") :
    AgentGoError.fromResponse resp (some body) =
      { type := body.error, message := body.message, status := some resp.status,
        details := body.details, retryAfter := body.retryAfter } := by
  simp [AgentGoError.fromResponse, h]

/-- Witness for `c2_body_classification` at a concrete response and body. -/
theorem c2_body_classification_witness :
    ({ error := "RATE_LIMIT_EXCEEDED", message := "slow down",
       retryAfter := some 30 } : AgentGoErrorResponse).error ≠ "" ∧
    AgentGoError.fromResponse ⟨429, "Too Many Requests"⟩
      (some { error := "RATE_LIMIT_EXCEEDED", message := "slow down", retryAfter := some 30 }) =
      { type := "RATE_LIMIT_EXCEEDED", message := "slow down", status := some 429,
        details := none, retryAfter := some 30 } :=
  ⟨by decide, c2_body_classification _ _ (by decide)⟩

/-- Claim C3: for every HTTP error response with no structured body,
classification by status yields 400 → INVALID_REQUEST, 401 → UNAUTHORIZED,
404 → SESSION_NOT_FOUND, 429 → RATE_LIMIT_EXCEEDED, 500/502/503/504 →
INTERNAL_SERVER_ERROR, anything else (e.g. 418) → UNKNOWN_ERROR, and the
error value's status field equals the response status. -/
theorem c3_status_code_mapping (st : Nat) (stx : String) :
    (AgentGoError.fromResponse ⟨st, stx⟩ none).status = some st ∧
    (AgentGoError.fromResponse ⟨st, stx⟩ none).type =
      (if st = 400 then "INVALID_REQUEST"
       else if st = 401 then "UNAUTHORIZED"
       else if st = 404 then "SESSION_NOT_FOUND"
       else if st = 429 then "RATE_LIMIT_EXCEEDED"
       else if st = 500 ∨ st = 502 ∨ st = 503 ∨ st = 504 then "INTERNAL_SERVER_ERROR"
       else "UNKNOWN_ERROR") := by
  unfold AgentGoError.fromResponse AgentGoError.fromStatusCode
  split_ifs <;> simp_all

/-- Claim C4: isRetryable is true exactly on the four kinds
RATE_LIMIT_EXCEEDED, INTERNAL_SERVER_ERROR, NETWORK_ERROR, TIMEOUT_ERROR,
hence in particular false on the other four kinds of the enumeration. -/
theorem c4_isRetryable_exactly_four_kinds (e : AgentGoError) :
    e.isRetryable = true ↔
      (e.type = "RATE_LIMIT_EXCEEDED" ∨ e.type = "INTERNAL_SERVER_ERROR" ∨
       e.type = "NETWORK_ERROR" ∨ e.type = "TIMEOUT_ERROR") := by
  simp [AgentGoError.isRetryable, or_assoc]

/-- Claim C5 as frozen is false on the code: at the concrete input
retryAfter = 0 (a set retry-after field) with kind RATE_LIMIT_EXCEEDED,
retryDelay returns the 60000 default, not retryAfter * 1000 = 0. -/
theorem c5_zero_retryAfter_counterexample :
    (AgentGoError.getRetryDelay
      { type := "RATE_LIMIT_EXCEEDED", message := "m", retryAfter := some 0 }) = 60000 ∧
    (AgentGoError.getRetryDelay
      { type := "RATE_LIMIT_EXCEEDED", message := "m", retryAfter := some 0 }) ≠ 0 * 1000 := by
  constructor <;>
    norm_num [AgentGoError.getRetryDelay, AgentGoError.truthyRetryAfter,
      AgentGoError.defaultRetryDelay]

/-- Claim C5 amended: retryDelay returns retryAfter * 1000 whenever the
retry-after field is set to a nonzero value (e.g. 30 yields 30000); when it
is absent — or set to 0, which the truthiness test treats as absent — it
returns the kind's default delay: 60000 for RATE_LIMIT_EXCEEDED, 5000 for
INTERNAL_SERVER_ERROR, 1000 for NETWORK_ERROR, 2000 for TIMEOUT_ERROR, and
1000 for every other kind. -/
theorem c5_retryDelay_rule (e : AgentGoError) :
    (∀ q : ℚ, e.retryAfter = some q → q ≠ 0 → e.getRetryDelay = q * 1000) ∧
    ((e.retryAfter = none ∨ e.retryAfter = some 0) →
      e.getRetryDelay =
        (if e.type = "RATE_LIMIT_EXCEEDED" then 60000
         else if e.type = "INTERNAL_SERVER_ERROR" then 5000
         else if e.type = "NETWORK_ERROR" then 1000
         else if e.type = "TIMEOUT_ERROR" then 2000
         else 1000)) := by
  constructor
  · intro q hq hq0
    simp [AgentGoError.getRetryDelay, AgentGoError.truthyRetryAfter, hq, hq0]
  · rintro (h | h) <;>
      simp [AgentGoError.getRetryDelay, AgentGoError.truthyRetryAfter, h,
        AgentGoError.defaultRetryDelay]

/-- Witness for `c5_retryDelay_rule`: retryAfter = 30 on a rate-limit error
yields 30 * 1000 ms. -/
theorem c5_retryDelay_rule_witness :
    ({ type := "RATE_LIMIT_EXCEEDED", message := "m", retryAfter := some 30 } :
      AgentGoError).getRetryDelay = 30 * 1000 :=
  (c5_retryDelay_rule _).1 30 rfl (by norm_num)

/-- Claim C9: a retry-after field explicitly set to 0 is treated as absent
by the truthiness test, so retryDelay falls back to the kind's default; in
particular a rate-limit error with retryAfter = 0 gets 60000 ms, not 0. -/
theorem c9_zero_retryAfter_as_absent (e : AgentGoError) (h : e.retryAfter = some 0) :
    e.getRetryDelay = AgentGoError.getRetryDelay { e with retryAfter := none } ∧
    (e.type = "RATE_LIMIT_EXCEEDED" → e.getRetryDelay = 60000) := by
  constructor
  · simp [AgentGoError.getRetryDelay, AgentGoError.truthyRetryAfter, h]
  · intro ht
    simp [AgentGoError.getRetryDelay, AgentGoError.truthyRetryAfter, h,
      AgentGoError.defaultRetryDelay, ht]

/-- Witness for `c9_zero_retryAfter_as_absent` at a concrete rate-limit
error with retryAfter = 0. -/
theorem c9_zero_retryAfter_as_absent_witness :
    ({ type := "RATE_LIMIT_EXCEEDED", message := "m", retryAfter := some 0 } :
      AgentGoError).getRetryDelay = 60000 :=
  (c9_zero_retryAfter_as_absent _ rfl).2 rfl

/-! ## Claims about the request engine -/

/-- Behavior of the retry loop from attempt `a` onward when every attempt up
to the budget `r` fails with the retryable error `e n`: the loop performs
the remaining `d + 1 = r - a + 1` attempts, sleeps after each failed attempt
except the last, and throws the error of the last attempt. -/
theorem requestAux_all_retryable {α : Type} (timeout : Nat) (f : Nat → FetchResult α)
    (jitter : Nat → ℚ) (e : Nat → AgentGoError) (r : Nat)
    (hf : ∀ n, n ≤ r → (AgentGoClient._makeRequest timeout (f n)).1 = Except.error (e n))
    (hret : ∀ n, n ≤ r → (e n).isRetryable = true) :
    ∀ (d a : Nat), a + d = r → ∀ (last : Option AgentGoError),
      (AgentGoClient._requestAux timeout f jitter (r : Int) a last).result =
        AgentGoClient.RequestOutcome.err (e r) ∧
      (AgentGoClient._requestAux timeout f jitter (r : Int) a last).invocations = d + 1 ∧
      (AgentGoClient._requestAux timeout f jitter (r : Int) a last).sleeps.length = d := by
  intro d
  induction d with
  | zero =>
    intro a ha last
    have haa : a = r := by omega
    subst haa
    rw [AgentGoClient._requestAux.eq_def]
    rw [dif_pos (le_refl (a : Int))]
    rw [hf a (by omega)]
    simp
  | succ d ih =>
    intro a ha last
    have har : a < r := by omega
    rw [AgentGoClient._requestAux.eq_def]
    rw [dif_pos (by exact_mod_cast Nat.le_of_lt har)]
    rw [hf a (by omega)]
    have hb : ((a : Int) == (r : Int)) = false := by
      simp only [beq_eq_false_iff_ne, ne_eq, Int.natCast_inj]
      omega
    have h3 := ih (a + 1) (by omega) (some (e a))
    simp [hb, hret a (by omega), h3.1, h3.2.1, h3.2.2]

/-- Behavior of the retry loop from attempt `a` onward when attempts before
`k` fail with retryable errors and attempt `k` (with `a ≤ k ≤ r`) succeeds
with payload `v`: the loop performs `d + 1 = k - a + 1` attempts, sleeps
after each failed one, and returns the payload. -/
theorem requestAux_fail_then_ok {α : Type} (timeout : Nat) (f : Nat → FetchResult α)
    (jitter : Nat → ℚ) (e : Nat → AgentGoError) (r k : Nat) (v : α) (hkr : k ≤ r)
    (hf : ∀ n, n < k → (AgentGoClient._makeRequest timeout (f n)).1 = Except.error (e n))
    (hret : ∀ n, n < k → (e n).isRetryable = true)
    (hok : (AgentGoClient._makeRequest timeout (f k)).1 = Except.ok v) :
    ∀ (d a : Nat), a + d = k → ∀ (last : Option AgentGoError),
      (AgentGoClient._requestAux timeout f jitter (r : Int) a last).result =
        AgentGoClient.RequestOutcome.ok v ∧
      (AgentGoClient._requestAux timeout f jitter (r : Int) a last).invocations = d + 1 ∧
      (AgentGoClient._requestAux timeout f jitter (r : Int) a last).sleeps.length = d := by
  intro d
  induction d with
  | zero =>
    intro a ha last
    have haa : a = k := by omega
    subst haa
    rw [AgentGoClient._requestAux.eq_def]
    rw [dif_pos (by exact_mod_cast hkr)]
    rw [hok]
    simp
  | succ d ih =>
    intro a ha last
    have har : a < r := by omega
    rw [AgentGoClient._requestAux.eq_def]
    rw [dif_pos (by exact_mod_cast Nat.le_of_lt har)]
    rw [hf a (by omega)]
    have hb : ((a : Int) == (r : Int)) = false := by
      simp only [beq_eq_false_iff_ne, ne_eq, Int.natCast_inj]
      omega
    have h3 := ih (a + 1) (by omega) (some (e a))
    simp [hb, hret a (by omega), h3.1, h3.2.1, h3.2.2]

/-- Claim C7: for every attempt index n, error e and jitter in [0, 1000),
the backoff delay equals min(retryDelay * 2 ^ n + jitter, 60000), lies in
the band [min(retryDelay * 2 ^ n, 60000), min(retryDelay * 2 ^ n + 1000,
60000)], and never exceeds 60000 ms, however large n is. -/
theorem c7_backoff_bounds (n : Nat) (e : AgentGoError) (jitter : ℚ)
    (h0 : 0 ≤ jitter) (h1 : jitter < 1000) :
    AgentGoClient._getRetryDelay n e jitter =
      min (e.getRetryDelay * 2 ^ n + jitter) 60000 ∧
    min (e.getRetryDelay * 2 ^ n) 60000 ≤ AgentGoClient._getRetryDelay n e jitter ∧
    AgentGoClient._getRetryDelay n e jitter ≤ min (e.getRetryDelay * 2 ^ n + 1000) 60000 ∧
    AgentGoClient._getRetryDelay n e jitter ≤ 60000 := by
  refine ⟨rfl, ?_, ?_, ?_⟩
  · exact min_le_min (by linarith) le_rfl
  · exact min_le_min (by linarith) le_rfl
  · exact min_le_right _ _

/-- Witness for `c7_backoff_bounds` at attempt 2, a network error, and
jitter 500. -/
theorem c7_backoff_bounds_witness :
    (0 : ℚ) ≤ 500 ∧ (500 : ℚ) < 1000 ∧
    AgentGoClient._getRetryDelay 2 (AgentGoError.networkError "x") 500 =
      min ((AgentGoError.networkError "x").getRetryDelay * 2 ^ 2 + 500) 60000 ∧
    AgentGoClient._getRetryDelay 2 (AgentGoError.networkError "x") 500 ≤ 60000 :=
  ⟨by norm_num, by norm_num,
   (c7_backoff_bounds 2 (AgentGoError.networkError "x") 500 (by norm_num) (by norm_num)).1,
   (c7_backoff_bounds 2 (AgentGoError.networkError "x") 500 (by norm_num) (by norm_num)).2.2.2⟩

/-- Claim C8: every attempt creates exactly one timeout timer, clearTimeout
runs at least once on every way the attempt settles, and on a timeout abort
the attempt is classified TIMEOUT_ERROR with a message naming the timeout
value. -/
theorem c8_timer_cleared_every_path {α : Type} (timeout : Nat) (fr : FetchResult α) :
    (AgentGoClient._makeRequest timeout fr).2.timersCreated = 1 ∧
    1 ≤ (AgentGoClient._makeRequest timeout fr).2.clearCalls ∧
    (fr = FetchResult.rejectedAbort →
      (AgentGoClient._makeRequest timeout fr).1 =
        Except.error (AgentGoError.timeoutError
          ("Request timed out after " ++ toString timeout ++ "ms"))) := by
  cases fr with
  | resolved resp =>
    rcases h : AgentGoClient._handleResponse resp with v | e <;>
      simp [AgentGoClient._makeRequest, h]
  | rejectedAbort => simp [AgentGoClient._makeRequest]
  | rejectedError m => simp [AgentGoClient._makeRequest]

/-- Witness for `c8_timer_cleared_every_path` on a timed-out attempt with a
30000 ms timeout. -/
theorem c8_timer_cleared_every_path_witness :
    (AgentGoClient._makeRequest 30000 (FetchResult.rejectedAbort (α := Nat))).2.timersCreated = 1 ∧
    1 ≤ (AgentGoClient._makeRequest 30000 (FetchResult.rejectedAbort (α := Nat))).2.clearCalls ∧
    (AgentGoClient._makeRequest 30000 (FetchResult.rejectedAbort (α := Nat))).1 =
      Except.error (AgentGoError.timeoutError ("Request timed out after " ++ toString 30000 ++ "ms")) :=
  ⟨(c8_timer_cleared_every_path 30000 _).1,
   (c8_timer_cleared_every_path 30000 _).2.1,
   (c8_timer_cleared_every_path 30000 _).2.2 rfl⟩

/-- Claim C10: a negative per-request retry override makes the loop guard
fail before the first iteration, so the transport is never invoked and the
final `throw lastError` throws the initial null — not an error value of the
taxonomy. -/
theorem c10_negative_retries_throws_null {α : Type} (timeout : Nat)
    (f : Nat → FetchResult α) (jitter : Nat → ℚ) (maxRetries : Int)
    (h : maxRetries < 0) :
    AgentGoClient._request timeout f jitter maxRetries =
      ⟨AgentGoClient.RequestOutcome.nullThrown, 0, []⟩ := by
  unfold AgentGoClient._request AgentGoClient._requestAux
  rw [dif_neg (by omega)]
  rfl

/-- Witness for `c10_negative_retries_throws_null` at retries = -1. -/
theorem c10_negative_retries_throws_null_witness :
    (-1 : Int) < 0 ∧
    AgentGoClient._request 30000 (fun _ => FetchResult.rejectedError (α := Nat) "boom")
      (fun _ => 0) (-1) = ⟨AgentGoClient.RequestOutcome.nullThrown, 0, []⟩ :=
  ⟨by norm_num, c10_negative_retries_throws_null 30000 _ _ (-1) (by norm_num)⟩

/-- Claim C6: with retry budget r, if every attempt fails with a retryable
classification, the transport is invoked exactly r + 1 times and the last
classified error is thrown; and if the first k attempts (k ≤ r) fail
retryably while attempt k + 1 succeeds, the payload is returned after
exactly k + 1 invocations — in both cases with one sleep between each
consecutive pair of attempts. -/
theorem c6_retry_loop_counts {α : Type} (timeout : Nat) (f : Nat → FetchResult α)
    (jitter : Nat → ℚ) (e : Nat → AgentGoError) (r : Nat) :
    ((∀ n, n ≤ r → (AgentGoClient._makeRequest timeout (f n)).1 = Except.error (e n) ∧
        (e n).isRetryable = true) →
      (AgentGoClient._request timeout f jitter (r : Int)).result =
        AgentGoClient.RequestOutcome.err (e r) ∧
      (AgentGoClient._request timeout f jitter (r : Int)).invocations = r + 1 ∧
      (AgentGoClient._request timeout f jitter (r : Int)).sleeps.length = r) ∧
    (∀ (k : Nat) (v : α), k ≤ r →
      (∀ n, n < k → (AgentGoClient._makeRequest timeout (f n)).1 = Except.error (e n) ∧
        (e n).isRetryable = true) →
      (AgentGoClient._makeRequest timeout (f k)).1 = Except.ok v →
      (AgentGoClient._request timeout f jitter (r : Int)).result =
        AgentGoClient.RequestOutcome.ok v ∧
      (AgentGoClient._request timeout f jitter (r : Int)).invocations = k + 1 ∧
      (AgentGoClient._request timeout f jitter (r : Int)).sleeps.length = k) := by
  constructor
  · intro hall
    exact requestAux_all_retryable timeout f jitter e r
      (fun n hn => (hall n hn).1) (fun n hn => (hall n hn).2) r 0 (by omega) none
  · intro k v hkr hfail hok
    exact requestAux_fail_then_ok timeout f jitter e r k v hkr
      (fun n hn => (hfail n hn).1) (fun n hn => (hfail n hn).2) hok k 0 (by omega) none

/-- Witness for `c6_retry_loop_counts`: budget 2 with a transport that always
rejects gives 3 invocations and the last network error; budget 3 with a
transport failing twice then succeeding with payload 7 gives the payload
after 3 invocations and 2 sleeps. -/
theorem c6_retry_loop_counts_witness :
    ((AgentGoClient._request 30000 (fun _ => FetchResult.rejectedError (α := Nat) "boom")
        (fun _ => 0) 2).invocations = 3 ∧
      (AgentGoClient._request 30000 (fun _ => FetchResult.rejectedError (α := Nat) "boom")
        (fun _ => 0) 2).result =
        AgentGoClient.RequestOutcome.err
          (AgentGoError.networkError "Network request failed: boom")) ∧
    ((AgentGoClient._request 30000
        (fun n => if n < 2 then FetchResult.rejectedError "boom"
          else FetchResult.resolved ⟨true, 200, "OK", true, none, (7 : Nat)⟩)
        (fun _ => 0) 3).result = AgentGoClient.RequestOutcome.ok 7 ∧
      (AgentGoClient._request 30000
        (fun n => if n < 2 then FetchResult.rejectedError "boom"
          else FetchResult.resolved ⟨true, 200, "OK", true, none, (7 : Nat)⟩)
        (fun _ => 0) 3).invocations = 3 ∧
      (AgentGoClient._request 30000
        (fun n => if n < 2 then FetchResult.rejectedError "boom"
          else FetchResult.resolved ⟨true, 200, "OK", true, none, (7 : Nat)⟩)
        (fun _ => 0) 3).sleeps.length = 2) := by
  constructor
  · have h := (c6_retry_loop_counts 30000 (fun _ => FetchResult.rejectedError (α := Nat) "boom")
      (fun _ => 0) (fun _ => AgentGoError.networkError "Network request failed: boom") 2).1
      (fun n _ => ⟨rfl, rfl⟩)
    exact ⟨h.2.1, h.1⟩
  · exact (c6_retry_loop_counts 30000
      (fun n => if n < 2 then FetchResult.rejectedError "boom"
        else FetchResult.resolved ⟨true, 200, "OK", true, none, (7 : Nat)⟩)
      (fun _ => 0) (fun _ => AgentGoError.networkError "Network request failed: boom") 3).2
      2 7 (by omega) (fun n hn => by interval_cases n <;> exact ⟨rfl, rfl⟩) rfl

/-- Claim C1 fails on the code (a bug in the code, not the claim): at the
failing input — every attempt resolves with HTTP 400 and no JSON body,
retry budget 1 — the INVALID_REQUEST produced by the classifier and thrown
by `_handleResponse` is caught again inside `_makeRequest`, whose catch
block only exempts `AbortError`, and is re-wrapped as a retryable
NETWORK_ERROR; the engine therefore invokes the transport twice (not once)
and throws a NETWORK_ERROR with no status rather than the INVALID_REQUEST
with status 400 that the claim (and the repository's own tests) expect. -/
theorem c1_400_rewrapped_and_retried :
    (AgentGoClient._request 30000
        (fun _ => FetchResult.resolved ⟨false, 400, "Bad Request", false, none, (0 : Nat)⟩)
        (fun _ => 0) 1).result =
      AgentGoClient.RequestOutcome.err
        (AgentGoError.networkError "Network request failed: Invalid request parameters") ∧
    (AgentGoClient._request 30000
        (fun _ => FetchResult.resolved ⟨false, 400, "Bad Request", false, none, (0 : Nat)⟩)
        (fun _ => 0) 1).invocations = 2 ∧
    (AgentGoError.networkError "Network request failed: Invalid request parameters").type ≠
      "INVALID_REQUEST" ∧
    (AgentGoError.networkError "Network request failed: Invalid request parameters").status ≠
      some 400 := by
  refine ⟨?_, ?_, by decide, by decide⟩
  · exact (requestAux_all_retryable 30000
      (fun _ => FetchResult.resolved ⟨false, 400, "Bad Request", false, none, (0 : Nat)⟩)
      (fun _ => 0)
      (fun _ => AgentGoError.networkError "Network request failed: Invalid request parameters") 1
      (fun n _ => rfl) (fun n _ => rfl) 1 0 (by omega) none).1
  · exact (requestAux_all_retryable 30000
      (fun _ => FetchResult.resolved ⟨false, 400, "Bad Request", false, none, (0 : Nat)⟩)
      (fun _ => 0)
      (fun _ => AgentGoError.networkError "Network request failed: Invalid request parameters") 1
      (fun n _ => rfl) (fun n _ => rfl) 1 0 (by omega) none).2.1

end AgentGo
